import Mathlib

/-!
Shallow embedding of `src/app.py` (VC-website scraping / extraction /
dedup / similarity service).  Pure Python functions become Lean
functions; the external collaborators (HTTP fetch, the LLM, the vector
index) are modelled as explicit inputs; the request handler becomes a
function from those inputs and the store state to a result, the new
store state, and a trace of the external operations it performed.
-/

/-- Python values flowing through the pipeline: the JSON fields parsed
from the model response are, per the docstring in the code
(contacts: list or str), either strings or lists of strings. -/
inductive PyVal where
  | vstr (s : String)
  | vlist (xs : List String)
deriving DecidableEq

/-- A single quote character, as Python uses around repr of strings. -/
def pyQuote : String := "\x27"

/-- Python `repr` of a value (as used when a list or dict is
interpolated into an f-string). The simplified model does not escape
special characters inside strings, which no claim depends on. -/
def pyRepr : PyVal → String
  | .vstr s => pyQuote ++ s ++ pyQuote
  | .vlist xs =>
      "[" ++ String.intercalate ", " (xs.map (fun s => pyQuote ++ s ++ pyQuote)) ++ "]"

/-- Python `str` of a value: a bare string prints as itself, a list
prints as its repr. -/
def pyStr : PyVal → String
  | .vstr s => s
  | .vlist xs => pyRepr (.vlist xs)

/-- Python `str.capitalize`: first character upper-cased, the rest
lower-cased. -/
def pyCapitalize (s : String) : String :=
  match s.data with
  | [] => ""
  | c :: cs => String.mk (c.toUpper :: cs.map Char.toLower)

/-- The JSON object obtained from the model response after the double
`json.loads` (app.py lines 123-127): the four values looked up by key.
A missing key or malformed JSON raises inside the `try`, which the
embedding represents by passing `none` instead of a `ParsedResponse`. -/
structure ParsedResponse where
  vc_name : PyVal
  contacts : PyVal
  industries : PyVal
  investment_rounds : PyVal
deriving DecidableEq

/-- The `extracted_info` dict built at app.py lines 129-134. -/
structure ExtractedInfo where
  vc_name : PyVal
  contacts : PyVal
  industries : PyVal
  investment_rounds : PyVal
deriving DecidableEq

/-- The scalar-to-sequence coercion `[x] if isinstance(x, str) else x`
applied to `contacts`, `industries` and `investment_rounds`
(app.py lines 131-133). -/
def coerceToList (v : PyVal) : PyVal :=
  match v with
  | .vstr s => .vlist [s]
  | x => x

/-- Whether a value is a sequence (a Python list). -/
def isSeq : PyVal → Bool
  | .vlist _ => true
  | .vstr _ => false

/-- Embedding of `extract_vc_information` (app.py lines 69-138).  The LLM call and
the double JSON parse are modelled by their joint outcome: `some p`
when the call succeeded and both parses produced an object holding all
four keys, `none` when any exception was raised (the `except` branch
returns `None`).  On success the dict of lines 129-134 is built, with
`vc_name` stored as parsed and the other three fields coerced. -/
def extract_vc_information (llmResponse : Option ParsedResponse) : Option ExtractedInfo :=
  match llmResponse with
  | none => none
  | some p =>
      some { vc_name := p.vc_name
             contacts := coerceToList p.contacts
             industries := coerceToList p.industries
             investment_rounds := coerceToList p.investment_rounds }

/-- Embedding of the items view of the `extracted_info` dict: its
key/value pairs in insertion order `vc_name, contacts, industries, investment_rounds`. -/
def ExtractedInfo.items (e : ExtractedInfo) : List (String × PyVal) :=
  [("vc_name", e.vc_name), ("contacts", e.contacts),
   ("industries", e.industries), ("investment_rounds", e.investment_rounds)]

/-- Embedding of `format_information` (app.py lines 141-161): starting from the
fixed introductory sentence, append one line per dict item, the
"check manually" sentence when the value equals `["no info"]` and the
dash line otherwise. -/
def format_information (e : ExtractedInfo) (url : String) : String :=
  e.items.foldl
    (fun prompt kv =>
      if kv.2 = PyVal.vlist ["no info"] then
        prompt ++ "- There is not much information available about "
          ++ pyCapitalize kv.1
          ++ ". You can check it manually by visiting the website: "
          ++ url ++ "\n"
      else
        prompt ++ "- " ++ pyCapitalize kv.1 ++ ": " ++ pyStr kv.2 ++ "\n")
    "The information from the URL is the following: \n"

/-- An anchor element carrying an href attribute: the find_all call on
anchor tags with href set yields these; the scraper reads the href
value and the stripped anchor text. -/
structure Anchor where
  href : String
  text : String
deriving DecidableEq

/-- The parsed HTML document, as far as the scraper reads it: the
visible text nodes and the anchors carrying an `href`. -/
structure Page where
  textNodes : List String
  anchors : List Anchor
deriving DecidableEq

/-- Python `str.strip`: leading and trailing whitespace removed. -/
def pyStrip (s : String) : String :=
  String.mk (((s.data.dropWhile Char.isWhitespace).reverse.dropWhile
    Char.isWhitespace).reverse)

/-- Model of the soup get_text call with a single-space separator and
stripping on: each text node stripped, empty results dropped, the rest
joined by single spaces. -/
def soupGetText (nodes : List String) : String :=
  String.intercalate " " ((nodes.map pyStrip).filter (fun s => s ≠ ""))

/-- Python `str.startswith`. -/
def pyStartsWith (s pre : String) : Bool := pre.data.isPrefixOf s.data

/-- Model of `urllib.parse.urljoin` for the href shapes the scraper
meets: an absolute href is kept, otherwise it is resolved against the
base URL.  No claim depends on the resolution details. -/
def urljoin (base href : String) : String :=
  if pyStartsWith href "http://" || pyStartsWith href "https://" then href
  else if pyStartsWith href "/" then base ++ href
  else base ++ "/" ++ href

/-- Embedding of `scrape_texts_and_links` (app.py lines 38-67).  The GET request and
`raise_for_status` are modelled by their outcome: `some page` when the
response arrived with a 2xx status and parsed, `none` when
`requests.RequestException` was raised (network error or non-2xx
status), in which case the `except` branch returns `None`. -/
def scrape_texts_and_links (fetched : Option Page) (url : String) :
    Option (String × String) :=
  match fetched with
  | none => none
  | some page =>
      let texts := soupGetText page.textNodes
      let links := String.intercalate " "
        (page.anchors.map (fun a =>
          urljoin url a.href ++ " (" ++ pyStrip a.text ++ ")"))
      some (texts, links)

/-- Python `str` of the `extracted_info` dict, as produced by the
f-string interpolation of the dict used as the near-text query
(app.py line 201): keys in insertion order, values by `repr`. -/
def pyDictStr (e : ExtractedInfo) : String :=
  "\x7b" ++ String.intercalate ", "
    (e.items.map (fun kv => pyQuote ++ kv.1 ++ pyQuote ++ ": " ++ pyRepr kv.2))
  ++ "\x7d"

/-- Model of `weaviate.util.generate_uuid5` (imported at app.py line 12, applied
at line 190): an external deterministic content hash, `uuid.uuid5` of
the Python string of its argument.  Modelled as a concrete
deterministic 128-bit hash of the same serialization; the claims depend
only on it being a function of the serialization of the record. -/
def generate_uuid5 (e : ExtractedInfo) : Nat :=
  (pyDictStr e).data.foldl (fun h c => (h * 31 + c.toNat) % 2 ^ 128) 5381

/-- One interaction with the Weaviate collection, in the order the
handler performs them. -/
inductive StoreOp where
  | fetchAll (returnProperties : List String)
  | insert (properties : ExtractedInfo) (uuid : Nat)
  | nearText (query : String) (limit : Nat) (withDistance : Bool)
deriving DecidableEq

/-- The outcome of one request: a 200 body, a raised `HTTPException`
with status and detail, or an uncaught Python exception (which the
hosting framework surfaces as a generic 500 Internal Server Error). -/
inductive HttpResult where
  | ok (body : String)
  | httpError (status : Nat) (detail : String)
  | pythonError (message : String)
deriving DecidableEq

/-- What one execution of the handler produced: the HTTP outcome, the
collection contents afterwards, the store operations issued, and the
texts sent to the LLM. -/
structure RunResult where
  result : HttpResult
  store : List ExtractedInfo
  ops : List StoreOp
  llmCalls : List String
deriving DecidableEq

/-- The 200 response body (app.py line 206): the formatted message and
the `vc_name` properties of the near-text matches, rendered through the
f-string. -/
def responseBody (userFriendlyText : String) (names : List PyVal) : String :=
  "Message: " ++ userFriendlyText ++ " \n Similar companies: "
    ++ "[" ++ String.intercalate ", " (names.map pyRepr) ++ "]"

/-- Embedding of `process_vc_url` (app.py lines 164-206).  External collaborators
are inputs: `fetched` is the outcome of the GET on `url`, `llm` maps
the text sent to the model to the parsed response (or `none` on any
exception), `similar` is the near-text answer of the vector index for a
query and limit, and `store` is the current contents of the collection.

Control flow follows the source line by line:
`texts, links = scrape_texts_and_links(data.url)` unpacks the returned
value, so when the scrape failed and returned `None` the unpacking
itself raises `TypeError` — the `if text is None` check on line 178 is
never reached (and in the success branch `text` is a `str`, never
`None`, so the 400 branch is dead code).  Then extraction, the
existence check over all stored `vc_name`s, the conditional insert
keyed by `generate_uuid5`, the formatted message, and the top-3
near-text query with distance metadata. -/
def process_vc_url (fetched : Option Page) (url : String)
    (llm : String → Option ParsedResponse)
    (similar : String → Nat → List ExtractedInfo)
    (store : List ExtractedInfo) : RunResult :=
  match scrape_texts_and_links fetched url with
  | none =>
      { result := .pythonError "cannot unpack non-iterable NoneType object"
        store := store, ops := [], llmCalls := [] }
  | some (texts, links) =>
      let text := texts ++ links
      match extract_vc_information (llm text) with
      | none =>
          { result := .httpError 500 "Failed to extract information."
            store := store, ops := [], llmCalls := [text] }
      | some extracted_info =>
          let existingNames := store.map (fun o => o.vc_name)
          let query := pyDictStr extracted_info
          let user_friendly_text := format_information extracted_info url
          if extracted_info.vc_name ∈ existingNames then
            let sims := similar query 3
            { result := .ok (responseBody user_friendly_text
                (sims.map (fun o => o.vc_name)))
              store := store
              ops := [.fetchAll ["vc_name"], .nearText query 3 true]
              llmCalls := [text] }
          else
            let uuid := generate_uuid5 extracted_info
            let sims := similar query 3
            { result := .ok (responseBody user_friendly_text
                (sims.map (fun o => o.vc_name)))
              store := store ++ [extracted_info]
              ops := [.fetchAll ["vc_name"],
                      .insert extracted_info uuid,
                      .nearText query 3 true]
              llmCalls := [text] }

/-- The line `format_information` appends for one dict item (the body
of the loop at app.py lines 155-159, with the accumulated prompt
factored out). -/
def fieldLine (key : String) (v : PyVal) (url : String) : String :=
  if v = PyVal.vlist ["no info"] then
    "- There is not much information available about " ++ pyCapitalize key
      ++ ". You can check it manually by visiting the website: " ++ url ++ "\n"
  else
    "- " ++ pyCapitalize key ++ ": " ++ pyStr v ++ "\n"

/-- A concrete model response whose `vc_name` is a bare string. -/
def pAcme : ParsedResponse :=
  { vc_name := .vstr "Acme Ventures"
    contacts := .vstr "hello@acme.vc"
    industries := .vlist ["fintech", "healthtech"]
    investment_rounds := .vstr "no info" }

/-- Expected `extracted_info` dict built from `pAcme`. -/
def eAcme : ExtractedInfo :=
  { vc_name := .vstr "Acme Ventures"
    contacts := .vlist ["hello@acme.vc"]
    industries := .vlist ["fintech", "healthtech"]
    investment_rounds := .vlist ["no info"] }

/-- A concrete page with one text node and one relative anchor. -/
def pageEx : Page :=
  { textNodes := ["Acme Ventures invests in fintech."]
    anchors := [{ href := "/contact", text := "Contact Us" }] }

/-- The plain text scraped from `pageEx`. -/
def textsEx : String := "Acme Ventures invests in fintech."

/-- The link summary scraped from `pageEx`. -/
def linksEx : String := "https://example-vc.com/contact (Contact Us)"

/-- A model that always answers `pAcme`. -/
def llmEx : String → Option ParsedResponse := fun _ => some pAcme

/-- A vector index whose near-text answer is always `[eAcme]`. -/
def similarEx : String → Nat → List ExtractedInfo := fun _ _ => [eAcme]

/-- A concrete page containing no anchor tags. -/
def pageNoAnchors : Page := { textNodes := ["Hello VC"], anchors := [] }

/-- A model response whose `vc_name` field is the scalar "no info". -/
def pNoName : ParsedResponse :=
  { vc_name := .vstr "no info", contacts := .vstr "no info"
    industries := .vstr "no info", investment_rounds := .vstr "no info" }

/-- Expected `extracted_info` dict built from `pNoName`. -/
def eNoName : ExtractedInfo :=
  { vc_name := .vstr "no info", contacts := .vlist ["no info"]
    industries := .vlist ["no info"], investment_rounds := .vlist ["no info"] }

lemma isSeq_coerceToList (v : PyVal) : isSeq (coerceToList v) = true := by
  cases v <;> rfl

lemma foldl_step (prompt url key : String) (v : PyVal) :
    (if v = PyVal.vlist ["no info"] then
        prompt ++ "- There is not much information available about "
          ++ pyCapitalize key
          ++ ". You can check it manually by visiting the website: "
          ++ url ++ "\n"
      else
        prompt ++ "- " ++ pyCapitalize key ++ ": " ++ pyStr v ++ "\n")
      = prompt ++ fieldLine key v url := by
  unfold fieldLine
  split <;> simp [String.append_assoc]

lemma format_information_unfold (e : ExtractedInfo) (url : String) :
    format_information e url =
      "The information from the URL is the following: \n"
        ++ fieldLine "vc_name" e.vc_name url
        ++ fieldLine "contacts" e.contacts url
        ++ fieldLine "industries" e.industries url
        ++ fieldLine "investment_rounds" e.investment_rounds url := by
  simp only [format_information, ExtractedInfo.items, List.foldl]
  rw [foldl_step, foldl_step, foldl_step, foldl_step]

/-- C1: the spec (and the dead code at app.py lines 178-179) intends a
fetch failure to yield HTTP 400 with detail "Failed to scrape the
website.".  In the code, however, `texts, links =
scrape_texts_and_links(data.url)` unpacks the `None` returned on
failure and raises `TypeError` first, which surfaces as an uncaught
server error, not a 400; no store interaction occurs either way. -/
theorem fetch_failure_uncaught_typeerror (url : String)
    (llm : String → Option ParsedResponse)
    (similar : String → Nat → List ExtractedInfo)
    (store : List ExtractedInfo) :
    process_vc_url none url llm similar store =
      { result := .pythonError "cannot unpack non-iterable NoneType object"
        store := store, ops := [], llmCalls := [] } ∧
    HttpResult.pythonError "cannot unpack non-iterable NoneType object"
      ≠ HttpResult.httpError 400 "Failed to scrape the website." :=
  ⟨rfl, by decide⟩

/-- C2 counterexample: on a model response whose `vc_name` is the bare
string "Acme Ventures", `extract_vc_information` succeeds but the
`vc_name` value of the returned record is not a sequence, refuting the
claim that every one of the four values is a sequence. -/
theorem vc_name_not_sequence_counterexample :
    extract_vc_information (some pAcme) = some eAcme ∧
    isSeq eAcme.vc_name = false := ⟨rfl, rfl⟩

/-- C2 (amended): when `extract_vc_information` succeeds the record has
exactly the four keys in order, and `contacts`, `industries`,
`investment_rounds` are always sequences (a scalar string coerced into
a single-element sequence) — but `vc_name` is kept exactly as parsed
and may be a bare string. -/
theorem extract_fields_shape (p : ParsedResponse) (e : ExtractedInfo)
    (h : extract_vc_information (some p) = some e) :
    e.vc_name = p.vc_name ∧
    isSeq e.contacts = true ∧
    isSeq e.industries = true ∧
    isSeq e.investment_rounds = true ∧
    e.items.map Prod.fst = ["vc_name", "contacts", "industries", "investment_rounds"] := by
  cases Option.some.inj h
  exact ⟨rfl, isSeq_coerceToList _, isSeq_coerceToList _, isSeq_coerceToList _, rfl⟩

/-- C2 witness: the amended claim evaluated on the concrete response
`pAcme`. -/
theorem extract_fields_shape_witness :
    eAcme.vc_name = pAcme.vc_name ∧
    isSeq eAcme.contacts = true ∧
    isSeq eAcme.industries = true ∧
    isSeq eAcme.investment_rounds = true ∧
    eAcme.items.map Prod.fst = ["vc_name", "contacts", "industries", "investment_rounds"] :=
  extract_fields_shape pAcme eAcme rfl

/-- C3: when the extracted `vc_name` equals the `vc_name` of a record
already in the store, the handler performs no insert and the store is
unchanged, whatever the other extracted fields are. -/
theorem duplicate_name_no_insert (fetched : Option Page) (url : String)
    (llm : String → Option ParsedResponse)
    (similar : String → Nat → List ExtractedInfo)
    (store : List ExtractedInfo) (texts links : String) (e : ExtractedInfo)
    (hs : scrape_texts_and_links fetched url = some (texts, links))
    (he : extract_vc_information (llm (texts ++ links)) = some e)
    (hdup : e.vc_name ∈ store.map (fun o => o.vc_name)) :
    (process_vc_url fetched url llm similar store).store = store ∧
    ∀ r u, StoreOp.insert r u ∉ (process_vc_url fetched url llm similar store).ops := by
  unfold process_vc_url
  rw [hs]
  dsimp only
  rw [he]
  dsimp only
  rw [if_pos hdup]
  refine ⟨rfl, fun r u hmem => ?_⟩
  simp at hmem

/-- C3 witness: submitting `pageEx` when a record named
"Acme Ventures" is already stored leaves the store unchanged. -/
theorem duplicate_name_no_insert_witness :
    (process_vc_url (some pageEx) "https://example-vc.com" llmEx similarEx [eAcme]).store
      = [eAcme] :=
  (duplicate_name_no_insert (some pageEx) "https://example-vc.com" llmEx similarEx
    [eAcme] textsEx linksEx eAcme rfl rfl (by decide)).1

/-- C5: when the LLM call fails, `extract_vc_information` returns
`None` and the handler raises HTTP 500 with detail "Failed to extract
information.", touching the store not at all and calling the model
exactly once (no retry). -/
theorem extraction_failure_500 (fetched : Option Page) (url : String)
    (llm : String → Option ParsedResponse)
    (similar : String → Nat → List ExtractedInfo)
    (store : List ExtractedInfo) (texts links : String)
    (hs : scrape_texts_and_links fetched url = some (texts, links))
    (he : llm (texts ++ links) = none) :
    extract_vc_information (llm (texts ++ links)) = none ∧
    process_vc_url fetched url llm similar store =
      { result := .httpError 500 "Failed to extract information."
        store := store, ops := [], llmCalls := [texts ++ links] } := by
  have hx : extract_vc_information (llm (texts ++ links)) = none := by
    rw [he]
    rfl
  refine ⟨hx, ?_⟩
  unfold process_vc_url
  rw [hs]
  dsimp only
  rw [hx]

/-- C5 witness: a model that always raises makes the handler answer
HTTP 500 with the fixed detail on `pageEx`. -/
theorem extraction_failure_500_witness :
    extract_vc_information ((fun _ => none : String → Option ParsedResponse)
        (textsEx ++ linksEx)) = none ∧
    process_vc_url (some pageEx) "https://example-vc.com"
        (fun _ => none) similarEx [] =
      { result := .httpError 500 "Failed to extract information."
        store := [], ops := [], llmCalls := [textsEx ++ linksEx] } :=
  extraction_failure_500 (some pageEx) "https://example-vc.com"
    (fun _ => none) similarEx [] textsEx linksEx rfl rfl

/-- C4: `format_information` emits the fixed introductory sentence
followed by one newline-terminated line per field in the fixed order
`vc_name, contacts, industries, investment_rounds`; a field equal to
the sentinel `["no info"]` produces the check-manually sentence, any
other value produces the dash line with the capitalized field name. -/
theorem format_information_spec (e : ExtractedInfo) (url : String) :
    format_information e url =
      "The information from the URL is the following: \n"
        ++ fieldLine "vc_name" e.vc_name url
        ++ fieldLine "contacts" e.contacts url
        ++ fieldLine "industries" e.industries url
        ++ fieldLine "investment_rounds" e.investment_rounds url ∧
    (∀ key v u, v = PyVal.vlist ["no info"] →
      fieldLine key v u =
        "- There is not much information available about " ++ pyCapitalize key
          ++ ". You can check it manually by visiting the website: " ++ u ++ "\n") ∧
    (∀ key v u, v ≠ PyVal.vlist ["no info"] →
      fieldLine key v u = "- " ++ pyCapitalize key ++ ": " ++ pyStr v ++ "\n") := by
  refine ⟨format_information_unfold e url, ?_, ?_⟩
  · intro key v u hv
    rw [fieldLine, if_pos hv]
  · intro key v u hv
    rw [fieldLine, if_neg hv]

/-- C4 witness: the sentinel branch evaluated at a concrete field. -/
theorem format_information_spec_witness :
    fieldLine "contacts" (PyVal.vlist ["no info"]) "https://example-vc.com" =
      "- There is not much information available about "
        ++ pyCapitalize "contacts"
        ++ ". You can check it manually by visiting the website: "
        ++ "https://example-vc.com" ++ "\n" :=
  (format_information_spec eAcme "https://example-vc.com").2.1
    "contacts" (PyVal.vlist ["no info"]) "https://example-vc.com" rfl

/-- C6: the identifier is a deterministic function of the record —
identical record content always hashes to the identical identifier —
and every insert the handler performs uses exactly
`generate_uuid5` of the inserted record as the identifier. -/
theorem uuid_deterministic :
    (∀ e₁ e₂ : ExtractedInfo, e₁ = e₂ → generate_uuid5 e₁ = generate_uuid5 e₂) ∧
    (∀ (fetched : Option Page) (url : String)
       (llm : String → Option ParsedResponse)
       (similar : String → Nat → List ExtractedInfo)
       (store : List ExtractedInfo) (r : ExtractedInfo) (u : Nat),
       StoreOp.insert r u ∈ (process_vc_url fetched url llm similar store).ops →
       u = generate_uuid5 r) := by
  constructor
  · intro e₁ e₂ h
    rw [h]
  · intro fetched url llm similar store r u hmem
    unfold process_vc_url at hmem
    cases hs : scrape_texts_and_links fetched url with
    | none =>
        rw [hs] at hmem
        simp at hmem
    | some tl =>
        obtain ⟨texts, links⟩ := tl
        rw [hs] at hmem
        dsimp only at hmem
        cases he : extract_vc_information (llm (texts ++ links)) with
        | none =>
            rw [he] at hmem
            simp at hmem
        | some e =>
            rw [he] at hmem
            dsimp only at hmem
            by_cases hname : e.vc_name ∈ store.map (fun o => o.vc_name)
            · rw [if_pos hname] at hmem
              simp at hmem
            · rw [if_neg hname] at hmem
              simp at hmem
              obtain ⟨h1, h2⟩ := hmem
              rw [h1, h2]

/-- C6 witness: the determinism conjunct applied to the concrete
record `eAcme`. -/
theorem uuid_deterministic_witness :
    generate_uuid5 eAcme = generate_uuid5 eAcme :=
  uuid_deterministic.1 eAcme eAcme rfl

/-- C7: a page with zero anchor tags yields the empty link summary,
the combined blob `texts ++ links` equals the plain text alone, and
that plain text is exactly what the handler sends to the model. -/
theorem no_anchors_empty_links (url : String) (page : Page)
    (h : page.anchors = []) :
    scrape_texts_and_links (some page) url = some (soupGetText page.textNodes, "") ∧
    soupGetText page.textNodes ++ "" = soupGetText page.textNodes ∧
    ∀ (llm : String → Option ParsedResponse)
      (similar : String → Nat → List ExtractedInfo)
      (store : List ExtractedInfo),
      (process_vc_url (some page) url llm similar store).llmCalls
        = [soupGetText page.textNodes] := by
  have h1 : scrape_texts_and_links (some page) url
      = some (soupGetText page.textNodes, "") := by
    simp only [scrape_texts_and_links]
    rw [h]
    rfl
  refine ⟨h1, String.append_empty _, ?_⟩
  intro llm similar store
  unfold process_vc_url
  rw [h1]
  dsimp only
  rw [String.append_empty]
  cases extract_vc_information (llm (soupGetText page.textNodes)) with
  | none => rfl
  | some e =>
      dsimp only
      split <;> rfl

/-- C7 witness: the anchor-free page `pageNoAnchors` evaluated. -/
theorem no_anchors_empty_links_witness :
    scrape_texts_and_links (some pageNoAnchors) "https://example-vc.com"
      = some (soupGetText pageNoAnchors.textNodes, "") :=
  (no_anchors_empty_links "https://example-vc.com" pageNoAnchors rfl).1

/-- C8: on every successful request the handler issues exactly one
near-text query, whose query text is the Python string of the newly
extracted record (not the scraped text), with limit 3 and distance
metadata; and the 200 body depends on the returned matches only
through their `vc_name` properties. -/
theorem near_text_query_shape (fetched : Option Page) (url : String)
    (llm : String → Option ParsedResponse)
    (similar : String → Nat → List ExtractedInfo)
    (store : List ExtractedInfo) (texts links : String) (e : ExtractedInfo)
    (hs : scrape_texts_and_links fetched url = some (texts, links))
    (he : extract_vc_information (llm (texts ++ links)) = some e) :
    StoreOp.nearText (pyDictStr e) 3 true
      ∈ (process_vc_url fetched url llm similar store).ops ∧
    (∀ q n b, StoreOp.nearText q n b
        ∈ (process_vc_url fetched url llm similar store).ops →
      q = pyDictStr e ∧ n = 3 ∧ b = true) ∧
    ∀ similar₂ : String → Nat → List ExtractedInfo,
      (∀ q n, (similar₂ q n).map (fun o => o.vc_name)
          = (similar q n).map (fun o => o.vc_name)) →
      (process_vc_url fetched url llm similar₂ store).result
        = (process_vc_url fetched url llm similar store).result := by
  unfold process_vc_url
  rw [hs]
  dsimp only
  rw [he]
  dsimp only
  refine ⟨?_, ?_, ?_⟩
  · by_cases hname : e.vc_name ∈ store.map (fun o => o.vc_name)
    · rw [if_pos hname]
      simp
    · rw [if_neg hname]
      simp
  · intro q n b hmem
    by_cases hname : e.vc_name ∈ store.map (fun o => o.vc_name)
    · rw [if_pos hname] at hmem
      simp at hmem
      exact ⟨hmem.1, hmem.2.1, hmem.2.2⟩
    · rw [if_neg hname] at hmem
      simp at hmem
      exact ⟨hmem.1, hmem.2.1, hmem.2.2⟩
  · intro similar₂ hnames
    by_cases hname : e.vc_name ∈ store.map (fun o => o.vc_name)
    · simp only [if_pos hname]
      rw [hnames]
    · simp only [if_neg hname]
      rw [hnames]

/-- C8 witness: processing `pageEx` against an empty store issues the
near-text query serializing the extracted record `eAcme`. -/
theorem near_text_query_shape_witness :
    StoreOp.nearText (pyDictStr eAcme) 3 true
      ∈ (process_vc_url (some pageEx) "https://example-vc.com"
          llmEx similarEx []).ops :=
  (near_text_query_shape (some pageEx) "https://example-vc.com" llmEx similarEx
    [] textsEx linksEx eAcme rfl rfl).1

/-- C9: the handler never updates or deletes a stored record: after
any request the store equals its prior state, or its prior state plus
exactly one appended record, appended only when extraction succeeded
and no existing record shared its `vc_name`. -/
theorem store_append_only (fetched : Option Page) (url : String)
    (llm : String → Option ParsedResponse)
    (similar : String → Nat → List ExtractedInfo)
    (store : List ExtractedInfo) :
    (process_vc_url fetched url llm similar store).store = store ∨
    ∃ texts links e,
      scrape_texts_and_links fetched url = some (texts, links) ∧
      extract_vc_information (llm (texts ++ links)) = some e ∧
      e.vc_name ∉ store.map (fun o => o.vc_name) ∧
      (process_vc_url fetched url llm similar store).store = store ++ [e] := by
  unfold process_vc_url
  cases hs : scrape_texts_and_links fetched url with
  | none => left; rfl
  | some tl =>
      obtain ⟨texts, links⟩ := tl
      dsimp only
      cases he : extract_vc_information (llm (texts ++ links)) with
      | none => left; rfl
      | some e =>
          dsimp only
          by_cases hname : e.vc_name ∈ store.map (fun o => o.vc_name)
          · rw [if_pos hname]
            left
            rfl
          · rw [if_neg hname]
            right
            exact ⟨texts, links, e, rfl, he, hname, rfl⟩

/-- C10: `vc_name` is kept as the raw scalar parsed from the model, so
a "no info" answer for it is the bare string, fails the comparison of
the formatter against the sentinel sequence `["no info"]`, and yields the
dash line "- Vc_name: no info" instead of the check-manually
sentence. -/
theorem vc_name_no_info_dash_line (p : ParsedResponse) (e : ExtractedInfo)
    (url : String)
    (hp : p.vc_name = PyVal.vstr "no info")
    (he : extract_vc_information (some p) = some e) :
    e.vc_name = PyVal.vstr "no info" ∧
    e.vc_name ≠ PyVal.vlist ["no info"] ∧
    format_information e url =
      "The information from the URL is the following: \n"
        ++ "- Vc_name: no info\n"
        ++ fieldLine "contacts" e.contacts url
        ++ fieldLine "industries" e.industries url
        ++ fieldLine "investment_rounds" e.investment_rounds url := by
  cases Option.some.inj he
  dsimp only
  refine ⟨hp, ?_, ?_⟩
  · rw [hp]
    decide
  · rw [format_information_unfold]
    dsimp only
    rw [hp]
    have hf : ∀ u, fieldLine "vc_name" (PyVal.vstr "no info") u
        = "- Vc_name: no info\n" := by
      intro u
      rfl
    rw [hf]

/-- C10 witness: the model answering the scalar "no info" for every
field, evaluated at a concrete URL. -/
theorem vc_name_no_info_dash_line_witness :
    eNoName.vc_name = PyVal.vstr "no info" ∧
    eNoName.vc_name ≠ PyVal.vlist ["no info"] ∧
    format_information eNoName "https://example-vc.com" =
      "The information from the URL is the following: \n"
        ++ "- Vc_name: no info\n"
        ++ fieldLine "contacts" eNoName.contacts "https://example-vc.com"
        ++ fieldLine "industries" eNoName.industries "https://example-vc.com"
        ++ fieldLine "investment_rounds" eNoName.investment_rounds
            "https://example-vc.com" :=
  vc_name_no_info_dash_line pNoName eNoName "https://example-vc.com" rfl rfl
